import Mathlib

/-!
Verification of `luminosity-calibration/luminosity_inference_distance_prior.py`.

The script is glue code over external libraries (numpy, scipy, pystan,
parallaxsurveys, matplotlib, corner).  We embed the script's own logic
over ℚ (modelling the floating point numbers of the source), and model
every external computation as an abstract function supplied by an
`ExternalWorld` record:

  * `log10`  models `np.log10`;
  * `lk`     models the interpolant returned by
    `scipy.interpolate.interp1d(np.linspace(0, 0.175, 8), lkTableValues,
    kind='quadratic')`; everything we prove about it goes through the
    `InterpolatesLKTable` predicate, which says only that the function
    passes through the 8 tabulated points, a property any interp1d
    interpolant has;
  * `sqrtFn` models `np.sqrt`, used inside numpy's `.std()`;
  * `genSurvey` models the construction, seeding and observation
    generation of a `UniformDistributionSingleLuminosity{Hip,TGAS}`
    survey from the parsed command line arguments;
  * `uniformDraw lo hi n k` models the k-th call of
    `np.random.uniform(lo, hi, size=n)`;
  * `extract` models `fit.extract()[parname]`, the posterior draws that
    the external Stan sampler returned for a named parameter.

The embedded `naive_lum_estimate` and `run_luminosity_inference` follow
the source line by line; `RunResult` records the observable effects of a
run (which Stan file and model name were loaded, the data dictionary and
sampling call handed to the sampler, which arrays the naive estimator
received, the printed naive output, the assembled sample array, and
which plots were produced).
-/

/-! ### Command line arguments (`parseCommandLineArguments`) -/

/-- The parsed command line arguments of the script (the `args` dict). -/
structure Args where
  distMin : ℚ
  distMax : ℚ
  nstars : ℕ
  muM : ℚ
  sigmaM : ℚ
  mlim : ℚ
  cat : String
  surveyplot : Bool
  noplots : Bool
  volumecomplete : Bool
  surveyseed : Option Int
  stanseed : Option Int
  staniter : ℕ
  stanthin : ℕ
deriving DecidableEq

/-! ### The simulated parallax survey (external `parallaxsurveys` object) -/

/-- The fields of the survey object that the script reads after calling
`generateObservations()`. -/
structure Survey where
  numberOfStarsInSurvey : ℕ
  observedParallaxes : List ℚ
  parallaxErrors : List ℚ
  observedMagnitudes : List ℚ
  magnitudeErrors : List ℚ
  apparentMagnitudeLimit : ℚ
deriving DecidableEq

/-- Abstract interface to the external libraries the script calls. -/
structure ExternalWorld where
  log10 : ℚ → ℚ
  lk : ℚ → ℚ
  sqrtFn : ℚ → ℚ
  genSurvey : Args → Survey
  uniformDraw : ℚ → ℚ → ℕ → ℕ → List ℚ
  extract : String → List ℚ

/-! ### numpy mean and standard deviation -/

/-- `xs.mean()` of numpy. -/
def npMean (xs : List ℚ) : ℚ := xs.sum / xs.length

/-- The population variance underlying numpy's `xs.std()`. -/
def npVariance (xs : List ℚ) : ℚ :=
  ((xs.map fun x => (x - npMean xs) ^ 2).sum) / xs.length

/-- `xs.std()` of numpy: the square root of the population variance,
with the square root supplied by the external world. -/
def npStd (sqrtFn : ℚ → ℚ) (xs : List ℚ) : ℚ := sqrtFn (npVariance xs)

/-! ### The Lutz-Kelker correction table -/

/-- The abscissae `np.linspace(0, 0.175, 8)` of the Lutz-Kelker table:
relative parallax errors from 0 to 0.175 in steps of 0.025. -/
def lkTableRelErr : List ℚ :=
  [0, 25/1000, 50/1000, 75/1000, 100/1000, 125/1000, 150/1000, 175/1000]

/-- The ordinates of the Lutz-Kelker correction table from the source. -/
def lkTableValues : List ℚ :=
  [0, -1/100, -2/100, -6/100, -11/100, -18/100, -28/100, -43/100]

/-- A function interpolates the Lutz-Kelker table when it passes through
all 8 tabulated points.  The quadratic interpolant built by
`scipy.interpolate.interp1d(..., kind='quadratic')` has this property. -/
def InterpolatesLKTable (lk : ℚ → ℚ) : Prop :=
  ∀ j ∈ List.range 8, lk (lkTableRelErr.getD j 0) = lkTableValues.getD j 0

/-- A concrete table-lookup function used to witness
`InterpolatesLKTable`: on a table abscissa it returns the table value,
elsewhere 0. -/
def lkNodeFun (x : ℚ) : ℚ :=
  (((lkTableRelErr.zip lkTableValues).filter fun p => p.1 = x).headD (0, 0)).2

/-! ### `naive_lum_estimate` -/

/-- `lk_relative_error_limit = 0.175` from the source. -/
def lk_relative_error_limit : ℚ := 175/1000

/-- The indices selected by
`np.where(obsplx/errplx >= 1/lk_relative_error_limit)`. -/
def goodplx (obsplx errplx : List ℚ) : List ℕ :=
  (List.range obsplx.length).filter fun i =>
    1 / lk_relative_error_limit ≤ obsplx.getD i 0 / errplx.getD i 0

/-- `absMagNaive = obsmag[goodplx] + 5*np.log10(obsplx[goodplx]) - 10.0`. -/
def absMagNaive (log10 : ℚ → ℚ) (obsplx errplx obsmag : List ℚ) : List ℚ :=
  (goodplx obsplx errplx).map fun i =>
    obsmag.getD i 0 + 5 * log10 (obsplx.getD i 0) - 10

/-- `absMagNaiveCorrected = absMagNaive +
lk_correction(errplx[goodplx]/obsplx[goodplx])`: each selected star's
naive absolute magnitude plus the interpolated Lutz-Kelker correction
at its relative parallax error. -/
def absMagNaiveCorrected (log10 lk : ℚ → ℚ) (obsplx errplx obsmag : List ℚ) : List ℚ :=
  (goodplx obsplx errplx).map fun i =>
    (obsmag.getD i 0 + 5 * log10 (obsplx.getD i 0) - 10)
      + lk (errplx.getD i 0 / obsplx.getD i 0)

/-- What `naive_lum_estimate` prints: either the good-parallax count out
of the total together with the naive and Lutz-Kelker-corrected mean and
sigma, or the message that no naive estimate can be made. -/
inductive NaiveOutput
  | estimate (nGood nTotal : ℕ) (meanNaive sigmaNaive meanCorrected sigmaCorrected : ℚ)
  | cannotEstimate
deriving DecidableEq

/-- Embedding of `naive_lum_estimate(obsplx, errplx, obsmag, errmag)`.
`log10`, `lk` and `sqrtFn` stand for the external `np.log10`, the
scipy interpolant of the Lutz-Kelker table and the square root inside
numpy's `.std()`. -/
def naive_lum_estimate (log10 lk sqrtFn : ℚ → ℚ)
    (obsplx errplx obsmag errmag : List ℚ) : NaiveOutput :=
  if 3 ≤ (goodplx obsplx errplx).length then
    NaiveOutput.estimate (goodplx obsplx errplx).length obsplx.length
      (npMean (absMagNaive log10 obsplx errplx obsmag))
      (npStd sqrtFn (absMagNaive log10 obsplx errplx obsmag))
      (npMean (absMagNaiveCorrected log10 lk obsplx errplx obsmag))
      (npStd sqrtFn (absMagNaiveCorrected log10 lk obsplx errplx obsmag))
  else
    NaiveOutput.cannotEstimate

/-! ### `run_luminosity_inference` -/

/-- A value placed in the `stan_data` dictionary. -/
inductive StanValue
  | q (x : ℚ)
  | n (k : ℕ)
  | arr (xs : List ℚ)
deriving DecidableEq

/-- The call that the script makes to `sm.sampling(...)`. -/
structure SamplingCall where
  data : List (String × StanValue)
  pars : List String
  iter : ℕ
  chains : ℕ
  thin : ℕ
  seed : Option Int
  init : Option (List (List ℚ))
deriving DecidableEq

/-- `numChains = 4` from the source. -/
def numChains : ℕ := 4

/-- `maxPossibleAbsMag = survey.apparentMagnitudeLimit -
5*np.log10(distMax) + 5` (magnitude limited branch). -/
def maxPossibleAbsMag (w : ExternalWorld) (args : Args) : ℚ :=
  (w.genSurvey args).apparentMagnitudeLimit - 5 * w.log10 args.distMax + 5

/-- `initLow = maxPossibleAbsMag - 4`. -/
def initLow (w : ExternalWorld) (args : Args) : ℚ :=
  maxPossibleAbsMag w args - 4

/-- The `initialValuesList` built in the magnitude limited branch: one
`np.random.uniform(initLow, maxPossibleAbsMag, size=N)` draw of initial
absolute magnitudes per chain. -/
def initialValuesList (w : ExternalWorld) (args : Args) : List (List ℚ) :=
  (List.range numChains).map fun i =>
    w.uniformDraw (initLow w args) (maxPossibleAbsMag w args)
      (w.genSurvey args).numberOfStarsInSurvey i

/-- The `stan_data` dictionary literal of the branch the script takes:
the volume complete one on the left of the `if`, the magnitude limited
one (with the additional `surveyLimit` entry) on the right. -/
def stan_data (w : ExternalWorld) (args : Args) : List (String × StanValue) :=
  if args.volumecomplete then
    [("minDist", StanValue.q args.distMin),
     ("maxDist", StanValue.q args.distMax),
     ("N", StanValue.n (w.genSurvey args).numberOfStarsInSurvey),
     ("obsPlx", StanValue.arr (w.genSurvey args).observedParallaxes),
     ("errObsPlx", StanValue.arr (w.genSurvey args).parallaxErrors),
     ("obsMag", StanValue.arr (w.genSurvey args).observedMagnitudes),
     ("errObsMag", StanValue.arr (w.genSurvey args).magnitudeErrors)]
  else
    [("minDist", StanValue.q args.distMin),
     ("maxDist", StanValue.q args.distMax),
     ("surveyLimit", StanValue.q (w.genSurvey args).apparentMagnitudeLimit),
     ("N", StanValue.n (w.genSurvey args).numberOfStarsInSurvey),
     ("obsPlx", StanValue.arr (w.genSurvey args).observedParallaxes),
     ("errObsPlx", StanValue.arr (w.genSurvey args).parallaxErrors),
     ("obsMag", StanValue.arr (w.genSurvey args).observedMagnitudes),
     ("errObsMag", StanValue.arr (w.genSurvey args).magnitudeErrors)]

/-- The observable effects of one execution of
`run_luminosity_inference`. -/
structure RunResult where
  surveyPlotShown : Bool
  stanFile : String
  stanModelName : String
  call : SamplingCall
  naiveObsPlx : List ℚ
  naiveErrPlx : List ℚ
  naiveObsMag : List ℚ
  naiveErrMag : List ℚ
  naive : NaiveOutput
  samples : List (ℚ × ℚ)
  cornerPlotShown : Bool
deriving DecidableEq

/-- Embedding of `run_luminosity_inference(args)`.  The survey plot is
shown when `args['surveyplot'] and (not args['noplots'])`; the Stan file,
model name, data dictionary and initial values depend on the
`volumecomplete` flag; the sampling call carries
`pars=['meanAbsMag','sigmaAbsMag']`, `iter`, `chains=numChains`, `thin`
and `seed`; the naive estimator is applied to the survey's observed
arrays; `samples` is `np.vstack([extract meanAbsMag, extract
sigmaAbsMag]).transpose()`; the corner plot is drawn unless `noplots`. -/
def run_luminosity_inference (w : ExternalWorld) (args : Args) : RunResult :=
  { surveyPlotShown := args.surveyplot && !args.noplots
    stanFile :=
      if args.volumecomplete then
        "luminosity_inference_volume_complete_distance_prior.stan"
      else
        "luminosity_inference_distance_prior.stan"
    stanModelName :=
      if args.volumecomplete then "luminosityInferenceDistPriorVC"
      else "luminosityInferenceDistPrior"
    call :=
      { data := stan_data w args
        pars := ["meanAbsMag", "sigmaAbsMag"]
        iter := args.staniter
        chains := numChains
        thin := args.stanthin
        seed := args.stanseed
        init :=
          if args.volumecomplete then none
          else some (initialValuesList w args) }
    naiveObsPlx := (w.genSurvey args).observedParallaxes
    naiveErrPlx := (w.genSurvey args).parallaxErrors
    naiveObsMag := (w.genSurvey args).observedMagnitudes
    naiveErrMag := (w.genSurvey args).magnitudeErrors
    naive := naive_lum_estimate w.log10 w.lk w.sqrtFn
      (w.genSurvey args).observedParallaxes (w.genSurvey args).parallaxErrors
      (w.genSurvey args).observedMagnitudes (w.genSurvey args).magnitudeErrors
    samples := (w.extract "meanAbsMag").zip (w.extract "sigmaAbsMag")
    cornerPlotShown := !args.noplots }

/-! ### Concrete instances used by the witnesses -/

/-- A concrete stand-in for an external real function. -/
def zeroFun : ℚ → ℚ := fun _ => 0

/-- A concrete three-star survey: every star has parallax 100, parallax
error 1, magnitude 5. -/
def sdemo : Survey :=
  { numberOfStarsInSurvey := 3
    observedParallaxes := [100, 100, 100]
    parallaxErrors := [1, 1, 1]
    observedMagnitudes := [5, 5, 5]
    magnitudeErrors := [1/100, 1/100, 1/100]
    apparentMagnitudeLimit := 10 }

/-- A concrete external world: zero logarithms and square roots, the
table-lookup Lutz-Kelker function, the fixed three-star survey, a
uniform sampler that returns the lower bound, and an empty posterior. -/
def wdemo : ExternalWorld :=
  { log10 := zeroFun
    lk := lkNodeFun
    sqrtFn := zeroFun
    genSurvey := fun _ => sdemo
    uniformDraw := fun lo _ n _ => List.replicate n lo
    extract := fun _ => [] }

/-- Concrete magnitude-limited arguments. -/
def ademoML : Args :=
  { distMin := 1, distMax := 100, nstars := 3, muM := 9, sigmaM := 7/10
    mlim := 10, cat := "hip", surveyplot := false, noplots := false
    volumecomplete := false, surveyseed := none, stanseed := none
    staniter := 10000, stanthin := 5 }

/-- Concrete volume-complete arguments. -/
def ademoVC : Args := { ademoML with volumecomplete := true }

/-- Concrete arguments with the `noplots` flag set. -/
def ademoNP : Args := { ademoML with noplots := true }

/-- Concrete arguments with the `surveyplot` flag set. -/
def ademoSP : Args := { ademoML with surveyplot := true }

/-! ### Claims -/

/-- C1: for every star selected into the naive estimate — exactly those
with `obsplx/errplx >= 1/0.175` — `naive_lum_estimate` computes its
naive absolute magnitude as `obsmag + 5*log10(obsplx) - 10.0` and its
corrected absolute magnitude as that value plus the Lutz-Kelker
correction (the interpolant `lk` of the 8-point table over relative
errors 0..0.175) evaluated at `errplx/obsplx`; the printed mean and
sigma are the mean and standard deviation of these per-star values. -/
theorem c1_naive_estimate_formula (log10 lk sqrtFn : ℚ → ℚ)
    (obsplx errplx obsmag errmag : List ℚ) (hlk : InterpolatesLKTable lk) :
    (∀ i, i ∈ goodplx obsplx errplx ↔
      i < obsplx.length ∧
        1 / lk_relative_error_limit ≤ obsplx.getD i 0 / errplx.getD i 0) ∧
    (∀ j, j < (goodplx obsplx errplx).length →
      (absMagNaive log10 obsplx errplx obsmag).getD j 0 =
        obsmag.getD ((goodplx obsplx errplx).getD j 0) 0
          + 5 * log10 (obsplx.getD ((goodplx obsplx errplx).getD j 0) 0) - 10 ∧
      (absMagNaiveCorrected log10 lk obsplx errplx obsmag).getD j 0 =
        (absMagNaive log10 obsplx errplx obsmag).getD j 0
          + lk (errplx.getD ((goodplx obsplx errplx).getD j 0) 0
              / obsplx.getD ((goodplx obsplx errplx).getD j 0) 0)) ∧
    (∀ j, j < (goodplx obsplx errplx).length → ∀ t ∈ List.range 8,
      errplx.getD ((goodplx obsplx errplx).getD j 0) 0
          / obsplx.getD ((goodplx obsplx errplx).getD j 0) 0 =
        lkTableRelErr.getD t 0 →
      (absMagNaiveCorrected log10 lk obsplx errplx obsmag).getD j 0 =
        (absMagNaive log10 obsplx errplx obsmag).getD j 0
          + lkTableValues.getD t 0) ∧
    (3 ≤ (goodplx obsplx errplx).length →
      naive_lum_estimate log10 lk sqrtFn obsplx errplx obsmag errmag =
        NaiveOutput.estimate (goodplx obsplx errplx).length obsplx.length
          (npMean (absMagNaive log10 obsplx errplx obsmag))
          (npStd sqrtFn (absMagNaive log10 obsplx errplx obsmag))
          (npMean (absMagNaiveCorrected log10 lk obsplx errplx obsmag))
          (npStd sqrtFn (absMagNaiveCorrected log10 lk obsplx errplx obsmag))) := by
  have hper : ∀ j, j < (goodplx obsplx errplx).length →
      (absMagNaive log10 obsplx errplx obsmag).getD j 0 =
        obsmag.getD ((goodplx obsplx errplx).getD j 0) 0
          + 5 * log10 (obsplx.getD ((goodplx obsplx errplx).getD j 0) 0) - 10 ∧
      (absMagNaiveCorrected log10 lk obsplx errplx obsmag).getD j 0 =
        (absMagNaive log10 obsplx errplx obsmag).getD j 0
          + lk (errplx.getD ((goodplx obsplx errplx).getD j 0) 0
              / obsplx.getD ((goodplx obsplx errplx).getD j 0) 0) := by
    intro j hj
    have hlen : j < (absMagNaive log10 obsplx errplx obsmag).length := by
      simpa [absMagNaive] using hj
    have hlenc : j < (absMagNaiveCorrected log10 lk obsplx errplx obsmag).length := by
      simpa [absMagNaiveCorrected] using hj
    have hg : (goodplx obsplx errplx).getD j 0 = (goodplx obsplx errplx)[j] := by
      rw [List.getD_eq_getElem?_getD, List.getElem?_eq_getElem hj]
      rfl
    constructor
    · rw [List.getD_eq_getElem?_getD, List.getElem?_eq_getElem hlen, hg]
      simp [absMagNaive]
    · rw [List.getD_eq_getElem?_getD, List.getElem?_eq_getElem hlenc,
        List.getD_eq_getElem?_getD (absMagNaive log10 obsplx errplx obsmag),
        List.getElem?_eq_getElem hlen, hg]
      simp [absMagNaive, absMagNaiveCorrected]
  refine ⟨?_, hper, ?_, ?_⟩
  · intro i
    simp [goodplx, List.mem_filter, List.mem_range]
  · intro j hj t ht heq
    rw [(hper j hj).2, heq, hlk t ht]
  · intro h3
    simp [naive_lum_estimate, h3]

/-- C1 witness: the theorem applied to the concrete three-star data. -/
theorem c1_naive_estimate_formula_witness :
    naive_lum_estimate zeroFun lkNodeFun zeroFun
        [100, 100, 100] [1, 1, 1] [5, 5, 5] [1/100, 1/100, 1/100] =
      NaiveOutput.estimate (goodplx [100, 100, 100] [1, 1, 1]).length 3
        (npMean (absMagNaive zeroFun [100, 100, 100] [1, 1, 1] [5, 5, 5]))
        (npStd zeroFun (absMagNaive zeroFun [100, 100, 100] [1, 1, 1] [5, 5, 5]))
        (npMean (absMagNaiveCorrected zeroFun lkNodeFun [100, 100, 100] [1, 1, 1] [5, 5, 5]))
        (npStd zeroFun (absMagNaiveCorrected zeroFun lkNodeFun [100, 100, 100] [1, 1, 1] [5, 5, 5])) :=
  (c1_naive_estimate_formula zeroFun lkNodeFun zeroFun
    [100, 100, 100] [1, 1, 1] [5, 5, 5] [1/100, 1/100, 1/100]
    (by
      intro j hj
      fin_cases hj <;> norm_num [lkNodeFun, lkTableRelErr, lkTableValues])).2.2.2
    (by norm_num [goodplx, lk_relative_error_limit, List.range_succ])

/-- C2: when the `volumecomplete` flag is set the script loads the Stan
model `luminosity_inference_volume_complete_distance_prior.stan` under
the model name `luminosityInferenceDistPriorVC`, and otherwise the
magnitude-limited model `luminosity_inference_distance_prior.stan` under
the model name `luminosityInferenceDistPrior`. -/
theorem c2_model_selection (w : ExternalWorld) (args : Args) :
    (args.volumecomplete = true →
      (run_luminosity_inference w args).stanFile =
          "luminosity_inference_volume_complete_distance_prior.stan" ∧
      (run_luminosity_inference w args).stanModelName =
          "luminosityInferenceDistPriorVC") ∧
    (args.volumecomplete = false →
      (run_luminosity_inference w args).stanFile =
          "luminosity_inference_distance_prior.stan" ∧
      (run_luminosity_inference w args).stanModelName =
          "luminosityInferenceDistPrior") := by
  constructor <;> intro h <;> simp [run_luminosity_inference, h]

/-- C2 witness: the theorem applied to the two concrete argument sets. -/
theorem c2_model_selection_witness :
    (run_luminosity_inference wdemo ademoVC).stanFile =
        "luminosity_inference_volume_complete_distance_prior.stan" ∧
    (run_luminosity_inference wdemo ademoML).stanModelName =
        "luminosityInferenceDistPrior" :=
  ⟨((c2_model_selection wdemo ademoVC).1 rfl).1,
   ((c2_model_selection wdemo ademoML).2 rfl).2⟩

/-- C5: the sampler is invoked with `pars=['meanAbsMag','sigmaAbsMag']`
and the sample array assembled afterwards stacks precisely the extracted
`meanAbsMag` and `sigmaAbsMag` draws as its two columns. -/
theorem c5_recovered_quantities (w : ExternalWorld) (args : Args) :
    (run_luminosity_inference w args).call.pars = ["meanAbsMag", "sigmaAbsMag"] ∧
    (run_luminosity_inference w args).samples =
      (w.extract "meanAbsMag").zip (w.extract "sigmaAbsMag") :=
  ⟨rfl, rfl⟩

/-- C6: with `noplots` set no plot is produced at all; with `noplots`
unset the survey-statistics plot is produced exactly when `surveyplot`
is set, and the corner plot is always produced. -/
theorem c6_plot_flags (w : ExternalWorld) (args : Args) :
    (args.noplots = true →
      (run_luminosity_inference w args).surveyPlotShown = false ∧
      (run_luminosity_inference w args).cornerPlotShown = false) ∧
    (args.noplots = false →
      (run_luminosity_inference w args).surveyPlotShown = args.surveyplot ∧
      (run_luminosity_inference w args).cornerPlotShown = true) := by
  constructor <;> intro h <;> simp [run_luminosity_inference, h]

/-- C6 witness: the theorem applied to concrete argument sets with
`noplots` set and unset. -/
theorem c6_plot_flags_witness :
    ((run_luminosity_inference wdemo ademoNP).surveyPlotShown = false ∧
      (run_luminosity_inference wdemo ademoNP).cornerPlotShown = false) ∧
    ((run_luminosity_inference wdemo ademoSP).surveyPlotShown = ademoSP.surveyplot ∧
      (run_luminosity_inference wdemo ademoSP).cornerPlotShown = true) :=
  ⟨(c6_plot_flags wdemo ademoNP).1 rfl, (c6_plot_flags wdemo ademoSP).2 rfl⟩

/-- C9: the output of `naive_lum_estimate` is independent of its
`errmag` argument: two calls differing only in `errmag` print the same
estimates and take the same branch. -/
theorem c9_errmag_noninterference (log10 lk sqrtFn : ℚ → ℚ)
    (obsplx errplx obsmag errmagA errmagB : List ℚ) :
    naive_lum_estimate log10 lk sqrtFn obsplx errplx obsmag errmagA =
      naive_lum_estimate log10 lk sqrtFn obsplx errplx obsmag errmagB := rfl

/-- C3: the dictionary passed to the sampler contains exactly the keys
`minDist`, `maxDist`, `N`, `obsPlx`, `errObsPlx`, `obsMag`, `errObsMag`
bound to the distance bounds, the survey's star count and its observed
parallaxes, parallax errors, observed magnitudes and magnitude errors;
in the magnitude-limited case it additionally contains `surveyLimit`
bound to the survey's apparent magnitude limit. -/
theorem c3_stan_data_dictionary (w : ExternalWorld) (args : Args) :
    (args.volumecomplete = true →
      (run_luminosity_inference w args).call.data =
        [("minDist", StanValue.q args.distMin),
         ("maxDist", StanValue.q args.distMax),
         ("N", StanValue.n (w.genSurvey args).numberOfStarsInSurvey),
         ("obsPlx", StanValue.arr (w.genSurvey args).observedParallaxes),
         ("errObsPlx", StanValue.arr (w.genSurvey args).parallaxErrors),
         ("obsMag", StanValue.arr (w.genSurvey args).observedMagnitudes),
         ("errObsMag", StanValue.arr (w.genSurvey args).magnitudeErrors)]) ∧
    (args.volumecomplete = false →
      (run_luminosity_inference w args).call.data =
        [("minDist", StanValue.q args.distMin),
         ("maxDist", StanValue.q args.distMax),
         ("surveyLimit", StanValue.q (w.genSurvey args).apparentMagnitudeLimit),
         ("N", StanValue.n (w.genSurvey args).numberOfStarsInSurvey),
         ("obsPlx", StanValue.arr (w.genSurvey args).observedParallaxes),
         ("errObsPlx", StanValue.arr (w.genSurvey args).parallaxErrors),
         ("obsMag", StanValue.arr (w.genSurvey args).observedMagnitudes),
         ("errObsMag", StanValue.arr (w.genSurvey args).magnitudeErrors)]) := by
  constructor <;> intro h <;> simp [run_luminosity_inference, stan_data, h]

/-- C3 witness: the theorem applied to the two concrete argument sets. -/
theorem c3_stan_data_dictionary_witness :
    (run_luminosity_inference wdemo ademoVC).call.data =
      [("minDist", StanValue.q ademoVC.distMin),
       ("maxDist", StanValue.q ademoVC.distMax),
       ("N", StanValue.n (wdemo.genSurvey ademoVC).numberOfStarsInSurvey),
       ("obsPlx", StanValue.arr (wdemo.genSurvey ademoVC).observedParallaxes),
       ("errObsPlx", StanValue.arr (wdemo.genSurvey ademoVC).parallaxErrors),
       ("obsMag", StanValue.arr (wdemo.genSurvey ademoVC).observedMagnitudes),
       ("errObsMag", StanValue.arr (wdemo.genSurvey ademoVC).magnitudeErrors)] ∧
    (run_luminosity_inference wdemo ademoML).call.data =
      [("minDist", StanValue.q ademoML.distMin),
       ("maxDist", StanValue.q ademoML.distMax),
       ("surveyLimit", StanValue.q (wdemo.genSurvey ademoML).apparentMagnitudeLimit),
       ("N", StanValue.n (wdemo.genSurvey ademoML).numberOfStarsInSurvey),
       ("obsPlx", StanValue.arr (wdemo.genSurvey ademoML).observedParallaxes),
       ("errObsPlx", StanValue.arr (wdemo.genSurvey ademoML).parallaxErrors),
       ("obsMag", StanValue.arr (wdemo.genSurvey ademoML).observedMagnitudes),
       ("errObsMag", StanValue.arr (wdemo.genSurvey ademoML).magnitudeErrors)] :=
  ⟨(c3_stan_data_dictionary wdemo ademoVC).1 rfl,
   (c3_stan_data_dictionary wdemo ademoML).2 rfl⟩

/-- C4 counterexample: on observed arrays with fewer than 3 good
parallaxes (here: empty arrays) `naive_lum_estimate` does not produce
the estimate; it takes the `Cannot make naive estimate` branch.  This
refutes the claim that the estimate is produced for all observed input
arrays. -/
theorem c4_counterexample_no_estimate :
    naive_lum_estimate zeroFun lkNodeFun zeroFun [] [] [] [] =
      NaiveOutput.cannotEstimate := rfl

/-- C4 (amended): every run invokes the naive estimator on the survey's
observed arrays after the sampling; it produces the estimate exactly
when at least 3 stars pass the parallax quality cut, and otherwise
reports that it cannot make a naive estimate. -/
theorem c4_naive_comparison_after_sampling (w : ExternalWorld) (args : Args) :
    (run_luminosity_inference w args).naive =
      naive_lum_estimate w.log10 w.lk w.sqrtFn
        (w.genSurvey args).observedParallaxes (w.genSurvey args).parallaxErrors
        (w.genSurvey args).observedMagnitudes (w.genSurvey args).magnitudeErrors ∧
    (3 ≤ (goodplx (w.genSurvey args).observedParallaxes
            (w.genSurvey args).parallaxErrors).length →
      (run_luminosity_inference w args).naive ≠ NaiveOutput.cannotEstimate) ∧
    ((goodplx (w.genSurvey args).observedParallaxes
        (w.genSurvey args).parallaxErrors).length < 3 →
      (run_luminosity_inference w args).naive = NaiveOutput.cannotEstimate) := by
  refine ⟨rfl, ?_, ?_⟩
  · intro h3
    show naive_lum_estimate w.log10 w.lk w.sqrtFn
        (w.genSurvey args).observedParallaxes (w.genSurvey args).parallaxErrors
        (w.genSurvey args).observedMagnitudes (w.genSurvey args).magnitudeErrors ≠ _
    unfold naive_lum_estimate
    rw [if_pos h3]
    simp
  · intro hlt
    show naive_lum_estimate w.log10 w.lk w.sqrtFn
        (w.genSurvey args).observedParallaxes (w.genSurvey args).parallaxErrors
        (w.genSurvey args).observedMagnitudes (w.genSurvey args).magnitudeErrors = _
    unfold naive_lum_estimate
    rw [if_neg (by omega)]

/-- C4 witness: the theorem applied to the concrete three-star survey,
where all three stars pass the cut. -/
theorem c4_naive_comparison_after_sampling_witness :
    (run_luminosity_inference wdemo ademoML).naive ≠ NaiveOutput.cannotEstimate :=
  (c4_naive_comparison_after_sampling wdemo ademoML).2.1
    (by norm_num [wdemo, sdemo, goodplx, lk_relative_error_limit, List.range_succ])

/-- C7: the naive estimator and the sampler operate on identical data:
the four arrays handed to `naive_lum_estimate` are the survey's observed
arrays, and those same arrays are the ones bound to `obsPlx`,
`errObsPlx`, `obsMag` and `errObsMag` in the sampler's dictionary. -/
theorem c7_same_data_for_naive_and_sampler (w : ExternalWorld) (args : Args) :
    (run_luminosity_inference w args).naiveObsPlx = (w.genSurvey args).observedParallaxes ∧
    (run_luminosity_inference w args).naiveErrPlx = (w.genSurvey args).parallaxErrors ∧
    (run_luminosity_inference w args).naiveObsMag = (w.genSurvey args).observedMagnitudes ∧
    (run_luminosity_inference w args).naiveErrMag = (w.genSurvey args).magnitudeErrors ∧
    (run_luminosity_inference w args).naive =
      naive_lum_estimate w.log10 w.lk w.sqrtFn
        (run_luminosity_inference w args).naiveObsPlx
        (run_luminosity_inference w args).naiveErrPlx
        (run_luminosity_inference w args).naiveObsMag
        (run_luminosity_inference w args).naiveErrMag ∧
    List.lookup "obsPlx" (run_luminosity_inference w args).call.data =
      some (StanValue.arr (w.genSurvey args).observedParallaxes) ∧
    List.lookup "errObsPlx" (run_luminosity_inference w args).call.data =
      some (StanValue.arr (w.genSurvey args).parallaxErrors) ∧
    List.lookup "obsMag" (run_luminosity_inference w args).call.data =
      some (StanValue.arr (w.genSurvey args).observedMagnitudes) ∧
    List.lookup "errObsMag" (run_luminosity_inference w args).call.data =
      some (StanValue.arr (w.genSurvey args).magnitudeErrors) := by
  refine ⟨rfl, rfl, rfl, rfl, rfl, ?_, ?_, ?_, ?_⟩ <;>
    cases h : args.volumecomplete <;>
      simp [run_luminosity_inference, stan_data, h, List.lookup]

/-- C8: when all parallax errors are strictly positive, every star
selected by the cut `obsplx/errplx >= 1/0.175` has a strictly positive
observed parallax and a relative error `errplx/obsplx` in (0, 0.175],
so the Lutz-Kelker interpolation is evaluated inside its table domain
and interp1d's out-of-range error branch is unreachable. -/
theorem c8_lk_domain_safety (obsplx errplx : List ℚ)
    (hpos : ∀ x ∈ errplx, 0 < x) (i : ℕ) (hi : i ∈ goodplx obsplx errplx) :
    0 < obsplx.getD i 0 ∧
    0 < errplx.getD i 0 / obsplx.getD i 0 ∧
    errplx.getD i 0 / obsplx.getD i 0 ≤ lk_relative_error_limit := by
  have hmem : i < obsplx.length ∧
      1 / lk_relative_error_limit ≤ obsplx.getD i 0 / errplx.getD i 0 := by
    simpa [goodplx, List.mem_filter, List.mem_range] using hi
  have he : 0 < errplx.getD i 0 := by
    by_cases hlen : i < errplx.length
    · refine hpos _ ?_
      rw [List.getD_eq_getElem?_getD, List.getElem?_eq_getElem hlen]
      exact List.getElem_mem hlen
    · exfalso
      have hz : errplx.getD i 0 = 0 := by
        rw [List.getD_eq_getElem?_getD, List.getElem?_eq_none (by omega)]
        rfl
      rw [hz, div_zero] at hmem
      have := hmem.2
      norm_num [lk_relative_error_limit] at this
  have h1 : 1 / lk_relative_error_limit * errplx.getD i 0 ≤ obsplx.getD i 0 :=
    (le_div_iff₀ he).mp hmem.2
  have h40 : (40/7 : ℚ) * errplx.getD i 0 ≤ obsplx.getD i 0 := by
    have : (1 / lk_relative_error_limit : ℚ) = 40/7 := by
      norm_num [lk_relative_error_limit]
    rwa [this] at h1
  have hp : 0 < obsplx.getD i 0 :=
    lt_of_lt_of_le (by nlinarith) h40
  refine ⟨hp, div_pos he hp, ?_⟩
  rw [div_le_iff₀ hp]
  have : lk_relative_error_limit = 7/40 := by norm_num [lk_relative_error_limit]
  rw [this]
  linarith

/-- C8 witness: the theorem applied to the concrete three-star data;
star 0 passes the cut and its relative error lies in the table domain. -/
theorem c8_lk_domain_safety_witness :
    0 < ([100, 100, 100] : List ℚ).getD 0 0 ∧
    0 < ([1, 1, 1] : List ℚ).getD 0 0 / ([100, 100, 100] : List ℚ).getD 0 0 ∧
    ([1, 1, 1] : List ℚ).getD 0 0 / ([100, 100, 100] : List ℚ).getD 0 0 ≤
      lk_relative_error_limit :=
  c8_lk_domain_safety [100, 100, 100] [1, 1, 1]
    (by intro x hx; fin_cases hx <;> norm_num) 0
    (by norm_num [goodplx, lk_relative_error_limit, List.range_succ])

/-- C10: in the magnitude-limited case the sampler runs with exactly 4
chains and an explicit initial-values list with one entry per chain,
each entry a uniform draw, for every star, from the interval
[L - 4, L] with L = surveyLimit - 5*log10(distMax) + 5; in the
volume-complete case no initial values are passed.  The hypothesis on
`uniformDraw` is numpy's contract for `np.random.uniform(lo, hi, n)`:
it returns n values in the requested interval. -/
theorem c10_initial_values (w : ExternalWorld) (args : Args)
    (hU : ∀ lo hi n k, lo ≤ hi →
      (w.uniformDraw lo hi n k).length = n ∧
      ∀ x ∈ w.uniformDraw lo hi n k, lo ≤ x ∧ x ≤ hi) :
    (args.volumecomplete = true →
      (run_luminosity_inference w args).call.init = none) ∧
    (args.volumecomplete = false →
      (run_luminosity_inference w args).call.chains = 4 ∧
      (run_luminosity_inference w args).call.init =
        some ((List.range 4).map fun k =>
          w.uniformDraw (maxPossibleAbsMag w args - 4) (maxPossibleAbsMag w args)
            (w.genSurvey args).numberOfStarsInSurvey k) ∧
      ∀ l ∈ (run_luminosity_inference w args).call.init.getD [],
        l.length = (w.genSurvey args).numberOfStarsInSurvey ∧
        ∀ x ∈ l, maxPossibleAbsMag w args - 4 ≤ x ∧ x ≤ maxPossibleAbsMag w args) := by
  have hle : maxPossibleAbsMag w args - 4 ≤ maxPossibleAbsMag w args := by linarith
  constructor
  · intro h
    simp [run_luminosity_inference, h]
  · intro h
    refine ⟨rfl, ?_, ?_⟩
    · simp [run_luminosity_inference, h, initialValuesList, numChains, initLow]
    · intro l hl
      simp only [run_luminosity_inference, h, Bool.false_eq_true, if_false,
        Option.getD_some, initialValuesList, numChains, List.mem_map,
        List.mem_range, initLow] at hl
      obtain ⟨k, _, rfl⟩ := hl
      exact hU _ _ _ k hle

/-- C10 witness: the theorem applied to the concrete world, whose
uniform sampler returns the lower bound; with survey limit 10 and zero
logarithm, L = 15 and every chain is initialised at 11 for each of the
3 stars. -/
theorem c10_initial_values_witness :
    (run_luminosity_inference wdemo ademoML).call.init =
      some [[11, 11, 11], [11, 11, 11], [11, 11, 11], [11, 11, 11]] := by
  have h := (c10_initial_values wdemo ademoML (by
    intro lo hi n k hle
    constructor
    · simp [wdemo]
    · intro x hx
      simp only [wdemo] at hx
      rw [List.eq_of_mem_replicate hx]
      exact ⟨le_refl lo, hle⟩)).2 rfl
  rw [h.2.1]
  norm_num [wdemo, sdemo, maxPossibleAbsMag, zeroFun, List.range_succ,
    List.replicate_succ]
